import Mathlib

/-!
Shallow embedding of `src/fix_pdfs_inplace.py` (a qpdf-based in-place PDF
fixer) and verification of its specification claims.

Modelling conventions:
- Python strings are embedded as `List Char` (`Str`); string literals are
  written `"...".toList`.
- A filesystem path is a pair of a directory part and a final name
  (`PPath`); the filesystem is a map `PPath → Option (List Nat)` giving the
  byte content of each existing regular file (`none` = the path does not
  exist, or any attempt to open/read it raises an I/O error).
- The external qpdf subprocess and the fallible OS operations (unlink,
  replace) are modelled by an environment record `ToolEnv` describing what
  they would do in a given run.
-/

/-- Embedded Python string. -/
abbrev Str := List Char

/-- ASCII lowering of one character (the fragment of Python `str.lower`
relevant to the `.pdf` comparison: no non-ASCII character lowercases to
`p`, `d`, `f` or `.`). -/
def lowerChar (c : Char) : Char :=
  if 'A' ≤ c ∧ c ≤ 'Z' then Char.ofNat (c.toNat + 32) else c

/-- Python `str.lower` on the embedded string. -/
def pyLower (s : Str) : Str := s.map lowerChar

/-- Whitespace as stripped by Python `str.strip()`. -/
def pySpace (c : Char) : Bool :=
  c = ' ' ∨ c = '\t' ∨ c = '\n' ∨ c = '\r' ∨ c = Char.ofNat 11 ∨ c = Char.ofNat 12

/-- Python `str.strip()`: drop whitespace from both ends. -/
def pyStrip (s : Str) : Str :=
  ((s.dropWhile pySpace).reverse.dropWhile pySpace).reverse

/-- A filesystem path: directory part plus final component (`Path.name`). -/
structure PPath where
  dir : Str
  name : Str
deriving DecidableEq

/-- Python `Path.with_name`: same directory, new final component. -/
def PPath.with_name (p : PPath) (n : Str) : PPath := ⟨p.dir, n⟩

/-- The filesystem: byte content of every existing regular file. -/
abbrev FS := PPath → Option (List Nat)

/-- Write (create or overwrite) a file. -/
def FS.set (fs : FS) (p : PPath) (v : List Nat) : FS :=
  fun q => if q = p then some v else fs q

/-- Delete a file. -/
def FS.del (fs : FS) (p : PPath) : FS :=
  fun q => if q = p then none else fs q

/-- Python `pathlib.PurePath.suffix` of a final component: the part from the last
dot on, provided that dot is neither the first nor the last character;
otherwise empty. -/
def pySuffix (name : Str) : Str :=
  match ((List.range name.length).filter
      (fun i => name.getD i ' ' = '.')).getLast? with
  | some i => if 0 < i ∧ i < name.length - 1 then name.drop i else []
  | none => []

/-- The PDF magic bytes `%PDF-`. -/
def pdfMagic : List Nat := [37, 80, 68, 70, 45]

/-- The detector `is_pdf_file`: extension must be `.pdf` case-insensitively, and the
first (up to) 5 bytes read from the file must equal `%PDF-`; an unreadable
file (`none`) yields `false` (the `except` clause). -/
def is_pdf_file (fs : FS) (path : PPath) : Bool :=
  if pyLower (pySuffix path.name) ≠ ".pdf".toList then false
  else
    match fs path with
    | none => false
    | some bytes => bytes.take 5 = pdfMagic

/-- Behaviour of the environment during one `fix_one_pdf` call: what the
qpdf subprocess would do, and whether the fallible OS operations
(`unlink`, `replace`) succeed. -/
structure ToolEnv where
  /-- Exit status of the qpdf subprocess. -/
  returncode : Int
  /-- Captured standard error of the subprocess. -/
  stderr : Str
  /-- Captured standard output of the subprocess. -/
  stdout : Str
  /-- Bytes the subprocess leaves at the temp output path (`none` = it
  writes nothing there). -/
  writes : Option (List Nat)
  /-- Whether deleting a stale temp file succeeds (the first
  `try: unlink` block). -/
  staleUnlinkOk : Bool
  /-- Whether the failure-path cleanup `unlink` succeeds. -/
  cleanupUnlinkOk : Bool
  /-- Whether `tmp_path.replace(pdf_path)` succeeds (it fails e.g. when
  the target is locked by another process). -/
  replaceOk : Bool
  /-- The exception text when `replace` fails. -/
  replaceErr : Str

/-- The argument vector built by `run_qpdf` for a valid mode. -/
def qpdf_cmd (qpdf : Str) (src tmp_out : Str) (mode : Str) :
    Option (List Str) :=
  if mode = "linearize".toList then
    some [qpdf, "--linearize".toList, src, tmp_out]
  else if mode = "disable_object_streams".toList then
    some [qpdf, "--object-streams=disable".toList, src, tmp_out]
  else
    none

/-- The `RuntimeError` message raised by `run_qpdf` on a non-zero exit
status: `(proc.stderr or proc.stdout or "").strip()`, falling back to
`qpdf returncode={rc}` when that strip is empty. -/
def run_qpdf_msg (rc : Int) (stderr stdout : Str) : Str :=
  let msg := pyStrip (if stderr ≠ [] then stderr else
    if stdout ≠ [] then stdout else [])
  if msg ≠ [] then msg
  else "qpdf returncode=".toList ++ (toString rc).toList

/-- The subprocess step `run_qpdf`: dispatch on the mode (an unknown mode raises `ValueError`
before any subprocess runs), then run the subprocess, which may write to
the temp output path; a non-zero exit status raises `RuntimeError` with
`run_qpdf_msg`. Returns (raised exception or unit, filesystem after the
call, number of subprocess invocations). -/
def run_qpdf (env : ToolEnv) (qpdf : Str) (src tmp_out : PPath)
    (mode : Str) (fs : FS) : Except Str Unit × FS × Nat :=
  match qpdf_cmd qpdf src.name tmp_out.name mode with
  | none => (.error ("Unbekannter Modus: ".toList ++ mode), fs, 0)
  | some _ =>
    let fs1 : FS := match env.writes with
      | some bs => fs.set tmp_out bs
      | none => fs
    if env.returncode ≠ 0 then
      (.error (run_qpdf_msg env.returncode env.stderr env.stdout), fs1, 1)
    else
      (.ok (), fs1, 1)

/-- Result of one `fix_one_pdf` call: the returned `(changed, status)`
pair, the filesystem afterwards, and how many subprocess invocations
happened. -/
structure FixOut where
  changed : Bool
  status : Str
  fs : FS
  calls : Nat

/-- The hidden temp-file name `.{name}.qpdf_tmp`. -/
def tmp_name_of (name : Str) : Str :=
  ".".toList ++ name ++ ".qpdf_tmp".toList

/-- The temp path sibling of a candidate:
`pdf_path.with_name(f".{pdf_path.name}.qpdf_tmp")`. -/
def tmpPathOf (p : PPath) : PPath := p.with_name (tmp_name_of p.name)

/-- The stale-temp removal step of `fix_one_pdf`: if a temp file already
exists, delete it, best-effort (a failing `unlink` is swallowed). -/
def staleClean (env : ToolEnv) (p : PPath) (fs : FS) : FS :=
  if (fs (tmpPathOf p)).isSome ∧ env.staleUnlinkOk
    then fs.del (tmpPathOf p) else fs

/-- The `except` clause of `fix_one_pdf`: best-effort delete the temp
file, then return `(False, f"FEHLER: {e}")`. -/
def cleanup_and_fail (env : ToolEnv) (tmp_path : PPath) (e : Str)
    (fs : FS) (calls : Nat) : FixOut :=
  let fs1 := if (fs tmp_path).isSome ∧ env.cleanupUnlinkOk
    then fs.del tmp_path else fs
  ⟨false, "FEHLER: ".toList ++ e, fs1, calls⟩

/-- The body of `fix_one_pdf` past the dry-run early return: stale-temp
removal, the `try` block (run qpdf, validate the temp output, atomic
replace) and the `except` clause. -/
def fix_attempt (env : ToolEnv) (qpdf : Str) (pdf_path : PPath)
    (mode : Str) (fs : FS) : FixOut :=
  match run_qpdf env qpdf pdf_path (tmpPathOf pdf_path) mode
      (staleClean env pdf_path fs) with
    | (.error e, fs1, calls) =>
      cleanup_and_fail env (tmpPathOf pdf_path) e fs1 calls
    | (.ok _, fs1, calls) =>
      match fs1 (tmpPathOf pdf_path) with
      | none =>
        cleanup_and_fail env (tmpPathOf pdf_path)
          "Temp-Ausgabe ist ungültig/leer.".toList fs1 calls
      | some bs =>
        if bs.length < 10 then
          cleanup_and_fail env (tmpPathOf pdf_path)
            "Temp-Ausgabe ist ungültig/leer.".toList fs1 calls
        else if env.replaceOk then
          ⟨true, "OK".toList,
            (fs1.del (tmpPathOf pdf_path)).set pdf_path bs, calls⟩
        else
          cleanup_and_fail env (tmpPathOf pdf_path) env.replaceErr fs1 calls

/-- The executor `fix_one_pdf`: dry-run returns `(False, "DRY-RUN")` immediately,
otherwise run the repair attempt. -/
def fix_one_pdf (env : ToolEnv) (qpdf : Str) (pdf_path : PPath)
    (mode : Str) (dry_run : Bool) (fs : FS) : FixOut :=
  if dry_run then ⟨false, "DRY-RUN".toList, fs, 0⟩
  else fix_attempt env qpdf pdf_path mode fs

/-- C1: `is_pdf_file` classifies a path as a PDF iff its extension is
`.pdf` case-insensitively and the first 5 bytes read from the file equal
the ASCII sequence `%PDF-`; a missing/unreadable file (modelled as
`fs path = none`) gives `false`, and the detector is a total Boolean
function (it never raises). -/
theorem C1_is_pdf_file_characterisation (fs : FS) (path : PPath) :
    is_pdf_file fs path = true ↔
      (pyLower (pySuffix path.name) = ".pdf".toList ∧
        ∃ bytes, fs path = some bytes ∧ bytes.take 5 = pdfMagic) := by
  unfold is_pdf_file
  constructor
  · intro h
    split at h
    · exact absurd h (by simp)
    · rename_i hsuf
      rw [not_ne_iff] at hsuf
      refine ⟨hsuf, ?_⟩
      split at h
      · exact absurd h (by simp)
      · rename_i bytes hb
        exact ⟨bytes, hb, by simpa using h⟩
  · rintro ⟨hsuf, bytes, hb, htake⟩
    rw [if_neg (not_ne_iff.mpr hsuf), hb]
    simpa using htake

/-! ### Helper lemmas about the filesystem model and the executor steps -/

theorem FS.set_self (fs : FS) (p : PPath) (v : List Nat) :
    (fs.set p v) p = some v := by simp [FS.set]

theorem FS.set_ne (fs : FS) (p q : PPath) (v : List Nat) (hq : q ≠ p) :
    (fs.set p v) q = fs q := by simp [FS.set, hq]

theorem FS.del_self (fs : FS) (p : PPath) : (fs.del p) p = none := by
  simp [FS.del]

theorem FS.del_ne (fs : FS) (p q : PPath) (hq : q ≠ p) :
    (fs.del p) q = fs q := by simp [FS.del, hq]

/-- The temp name is never the original name (it is 10 characters
longer). -/
theorem tmp_name_of_ne (n : Str) : tmp_name_of n ≠ n := by
  intro h
  have hl := congrArg List.length h
  simp [tmp_name_of] at hl
  omega

/-- The temp path is never the candidate path itself. -/
theorem tmpPathOf_ne (p : PPath) : tmpPathOf p ≠ p := by
  intro h
  cases p with
  | mk dir name =>
    have : tmp_name_of name = name := congrArg PPath.name h
    exact tmp_name_of_ne name this

theorem staleClean_apply_ne (env : ToolEnv) (p : PPath) (fs : FS)
    (q : PPath) (hq : q ≠ tmpPathOf p) : staleClean env p fs q = fs q := by
  unfold staleClean
  split
  · exact FS.del_ne fs (tmpPathOf p) q hq
  · rfl

theorem run_qpdf_fs_apply_ne (env : ToolEnv) (qpdf : Str)
    (src tmp_out : PPath) (mode : Str) (fs : FS) (q : PPath)
    (hq : q ≠ tmp_out) :
    (run_qpdf env qpdf src tmp_out mode fs).2.1 q = fs q := by
  unfold run_qpdf
  split
  · rfl
  · dsimp only
    split <;> split <;> first
      | rfl
      | exact FS.set_ne fs tmp_out q _ hq

theorem cleanup_and_fail_changed (env : ToolEnv) (tmp_path : PPath)
    (e : Str) (fs : FS) (calls : Nat) :
    (cleanup_and_fail env tmp_path e fs calls).changed = false := rfl

theorem cleanup_and_fail_status (env : ToolEnv) (tmp_path : PPath)
    (e : Str) (fs : FS) (calls : Nat) :
    (cleanup_and_fail env tmp_path e fs calls).status =
      "FEHLER: ".toList ++ e := rfl

theorem cleanup_and_fail_fs_ne (env : ToolEnv) (tmp_path : PPath)
    (e : Str) (fs : FS) (calls : Nat) (q : PPath) (hq : q ≠ tmp_path) :
    (cleanup_and_fail env tmp_path e fs calls).fs q = fs q := by
  unfold cleanup_and_fail
  dsimp only
  split
  · exact FS.del_ne fs tmp_path q hq
  · rfl

/-- When the cleanup `unlink` succeeds, no temp file remains after the
`except` clause. -/
theorem cleanup_and_fail_fs_tmp (env : ToolEnv) (tmp_path : PPath)
    (e : Str) (fs : FS) (calls : Nat) (h : env.cleanupUnlinkOk = true) :
    (cleanup_and_fail env tmp_path e fs calls).fs tmp_path = none := by
  unfold cleanup_and_fail
  dsimp only
  split
  · exact FS.del_self fs tmp_path
  · rename_i hcond
    rw [not_and_or] at hcond
    rcases hcond with hcond | hcond
    · rcases hfs : fs tmp_path with _ | v
      · rfl
      · exact absurd (by simp [hfs]) hcond
    · exact absurd h hcond

/-- Every non-"OK" outcome of a repair attempt leaves the source file's
content untouched, reports `changed = false` with a `FEHLER: ` status, and
(when the cleanup `unlink` succeeds) leaves no temp file behind. -/
theorem fix_attempt_failure (env : ToolEnv) (qpdf : Str) (pdf_path : PPath)
    (mode : Str) (fs : FS)
    (hok : (fix_attempt env qpdf pdf_path mode fs).status ≠ "OK".toList) :
    (fix_attempt env qpdf pdf_path mode fs).changed = false ∧
    (∃ e, (fix_attempt env qpdf pdf_path mode fs).status =
      "FEHLER: ".toList ++ e) ∧
    (fix_attempt env qpdf pdf_path mode fs).fs pdf_path = fs pdf_path ∧
    (env.cleanupUnlinkOk = true →
      (fix_attempt env qpdf pdf_path mode fs).fs (tmpPathOf pdf_path) =
        none) := by
  have hpdf_ne : pdf_path ≠ tmpPathOf pdf_path :=
    fun h => tmpPathOf_ne pdf_path h.symm
  rcases hr : run_qpdf env qpdf pdf_path (tmpPathOf pdf_path) mode
      (staleClean env pdf_path fs) with ⟨exc, fs1, calls⟩
  have hfs1 : fs1 pdf_path = fs pdf_path := by
    have h2 := run_qpdf_fs_apply_ne env qpdf pdf_path (tmpPathOf pdf_path)
      mode (staleClean env pdf_path fs) pdf_path hpdf_ne
    rw [hr] at h2
    exact h2.trans (staleClean_apply_ne env pdf_path fs pdf_path hpdf_ne)
  unfold fix_attempt at hok ⊢
  rw [hr] at hok ⊢
  cases exc with
  | error e =>
    dsimp only at hok ⊢
    refine ⟨cleanup_and_fail_changed .., ⟨e, cleanup_and_fail_status ..⟩,
      ?_, ?_⟩
    · exact (cleanup_and_fail_fs_ne env (tmpPathOf pdf_path) e fs1 calls
        pdf_path hpdf_ne).trans hfs1
    · intro h
      exact cleanup_and_fail_fs_tmp env (tmpPathOf pdf_path) e fs1 calls h
  | ok u =>
    dsimp only at hok ⊢
    rcases hv : fs1 (tmpPathOf pdf_path) with _ | bs
    all_goals rw [hv] at hok
    all_goals dsimp only at hok ⊢
    · refine ⟨cleanup_and_fail_changed .., ⟨_, cleanup_and_fail_status ..⟩,
        ?_, ?_⟩
      · exact (cleanup_and_fail_fs_ne env (tmpPathOf pdf_path) _ fs1 calls
          pdf_path hpdf_ne).trans hfs1
      · intro h
        exact cleanup_and_fail_fs_tmp env (tmpPathOf pdf_path) _ fs1 calls h
    · by_cases hlen : bs.length < 10
      · rw [if_pos hlen] at hok ⊢
        refine ⟨cleanup_and_fail_changed ..,
          ⟨_, cleanup_and_fail_status ..⟩, ?_, ?_⟩
        · exact (cleanup_and_fail_fs_ne env (tmpPathOf pdf_path) _ fs1
            calls pdf_path hpdf_ne).trans hfs1
        · intro h
          exact cleanup_and_fail_fs_tmp env (tmpPathOf pdf_path) _ fs1
            calls h
      · rw [if_neg hlen] at hok ⊢
        by_cases hrep : env.replaceOk = true
        · rw [if_pos hrep] at hok
          exact absurd rfl hok
        · rw [if_neg hrep] at hok ⊢
          refine ⟨cleanup_and_fail_changed ..,
            ⟨_, cleanup_and_fail_status ..⟩, ?_, ?_⟩
          · exact (cleanup_and_fail_fs_ne env (tmpPathOf pdf_path) _ fs1
              calls pdf_path hpdf_ne).trans hfs1
          · intro h
            exact cleanup_and_fail_fs_tmp env (tmpPathOf pdf_path) _ fs1
              calls h

/-- C6: on every failure path of `fix_one_pdf` (subprocess failure,
invalid output, replace failure — i.e. every outcome that is neither "OK"
nor "DRY-RUN"), the source file's content is exactly what it was before,
the temp file is deleted before returning whenever the best-effort cleanup
`unlink` succeeds, and the returned outcome is `changed = false` with a
`FEHLER: ` failure status. -/
theorem C6_failure_preserves_source (env : ToolEnv) (qpdf : Str)
    (pdf_path : PPath) (mode : Str) (dry_run : Bool) (fs : FS)
    (hok : (fix_one_pdf env qpdf pdf_path mode dry_run fs).status ≠
      "OK".toList)
    (hdry : (fix_one_pdf env qpdf pdf_path mode dry_run fs).status ≠
      "DRY-RUN".toList) :
    (fix_one_pdf env qpdf pdf_path mode dry_run fs).changed = false ∧
    (∃ e, (fix_one_pdf env qpdf pdf_path mode dry_run fs).status =
      "FEHLER: ".toList ++ e) ∧
    (fix_one_pdf env qpdf pdf_path mode dry_run fs).fs pdf_path =
      fs pdf_path ∧
    (env.cleanupUnlinkOk = true →
      (fix_one_pdf env qpdf pdf_path mode dry_run fs).fs
        (tmpPathOf pdf_path) = none) := by
  cases dry_run with
  | true => exact absurd rfl hdry
  | false => exact fix_attempt_failure env qpdf pdf_path mode fs hok

/-! ### Concrete inputs used by the witnesses and counterexamples -/

/-- An empty filesystem. -/
def fsEmpty : FS := fun _ => none

/-- A concrete candidate path. -/
def pathA : PPath := ⟨"/data".toList, "a.pdf".toList⟩

/-- Ten valid-looking output bytes (a body of length 10). -/
def tenBytes : List Nat := [37, 80, 68, 70, 45, 49, 46, 55, 10, 10]

/-- Environment for an invalid-mode call: the subprocess would succeed,
but the mode string is not recognised. -/
def envBadMode : ToolEnv := ⟨0, [], [], none, true, true, true, []⟩

/-- Environment in which qpdf succeeds, writes a valid temp output, but
the final atomic replace fails (e.g. the target file is locked). -/
def envRepFail : ToolEnv :=
  ⟨0, [], [], some tenBytes, true, true, false, "Zugriff verweigert".toList⟩

/-- Environment of a fully successful repair. -/
def envOk : ToolEnv := ⟨0, [], [], some tenBytes, true, true, true, []⟩

/-- Environment in which qpdf exits 1 with stderr "Malformed PDF". -/
def envMalformed : ToolEnv :=
  ⟨1, "Malformed PDF".toList, [], none, true, true, true, []⟩

/-- Environment in which qpdf exits 0 but writes nothing. -/
def envNoOutput : ToolEnv := ⟨0, [], [], none, true, true, true, []⟩

/-- Witness for C6: an invalid-mode call fails; the theorem applies and
yields the frame conditions at this concrete input. -/
theorem C6_failure_preserves_source_witness :
    ((fix_one_pdf envBadMode "qpdf".toList pathA "x".toList false
        fsEmpty).status ≠ "OK".toList) ∧
    ((fix_one_pdf envBadMode "qpdf".toList pathA "x".toList false
        fsEmpty).status ≠ "DRY-RUN".toList) ∧
    ((fix_one_pdf envBadMode "qpdf".toList pathA "x".toList false
        fsEmpty).changed = false ∧
     (∃ e, (fix_one_pdf envBadMode "qpdf".toList pathA "x".toList false
        fsEmpty).status = "FEHLER: ".toList ++ e) ∧
     (fix_one_pdf envBadMode "qpdf".toList pathA "x".toList false
        fsEmpty).fs pathA = fsEmpty pathA ∧
     (envBadMode.cleanupUnlinkOk = true →
       (fix_one_pdf envBadMode "qpdf".toList pathA "x".toList false
        fsEmpty).fs (tmpPathOf pathA) = none)) :=
  ⟨by decide, by decide,
    C6_failure_preserves_source envBadMode "qpdf".toList pathA "x".toList
      false fsEmpty (by decide) (by decide)⟩

/-! ### C3: dry-run is a pure no-op -/

/-- C3: with the dry-run flag set, `fix_one_pdf` returns
`(changed = false, status = "DRY-RUN")`, leaves the entire filesystem
untouched, and performs zero subprocess invocations. -/
theorem C3_dry_run_no_op (env : ToolEnv) (qpdf : Str) (pdf_path : PPath)
    (mode : Str) (fs : FS) :
    fix_one_pdf env qpdf pdf_path mode true fs =
      ⟨false, "DRY-RUN".toList, fs, 0⟩ := rfl

/-! ### Characterising `run_qpdf` on valid modes -/

/-- A recognised mode always produces an argument vector. -/
theorem qpdf_cmd_valid (qpdf src tmp_out : Str) (mode : Str)
    (hm : mode = "linearize".toList ∨
      mode = "disable_object_streams".toList) :
    ∃ c, qpdf_cmd qpdf src tmp_out mode = some c := by
  rcases hm with h | h <;> subst h <;> exact ⟨_, rfl⟩

/-- With a recognised mode, exit status 0 and a written output, the
subprocess step succeeds and the filesystem gains the temp output. -/
theorem run_qpdf_zero_writes (env : ToolEnv) (qpdf : Str)
    (src tmp_out : PPath) (mode : Str) (fs : FS) (bs : List Nat)
    (hm : mode = "linearize".toList ∨
      mode = "disable_object_streams".toList)
    (hrc : env.returncode = 0) (hw : env.writes = some bs) :
    run_qpdf env qpdf src tmp_out mode fs =
      (.ok (), fs.set tmp_out bs, 1) := by
  obtain ⟨c, hc⟩ := qpdf_cmd_valid qpdf src.name tmp_out.name mode hm
  unfold run_qpdf
  rw [hc]
  dsimp only
  rw [hw]
  dsimp only
  rw [if_neg (show ¬(env.returncode ≠ 0) from fun h => h hrc)]

/-- With a recognised mode, exit status 0 and no written output, the
subprocess step succeeds and the filesystem is unchanged. -/
theorem run_qpdf_zero_nowrites (env : ToolEnv) (qpdf : Str)
    (src tmp_out : PPath) (mode : Str) (fs : FS)
    (hm : mode = "linearize".toList ∨
      mode = "disable_object_streams".toList)
    (hrc : env.returncode = 0) (hw : env.writes = none) :
    run_qpdf env qpdf src tmp_out mode fs = (.ok (), fs, 1) := by
  obtain ⟨c, hc⟩ := qpdf_cmd_valid qpdf src.name tmp_out.name mode hm
  unfold run_qpdf
  rw [hc]
  dsimp only
  rw [hw]
  dsimp only
  rw [if_neg (show ¬(env.returncode ≠ 0) from fun h => h hrc)]

/-- With a recognised mode and a non-zero exit status, the subprocess
step raises `RuntimeError` with the `run_qpdf_msg` text. -/
theorem run_qpdf_nonzero (env : ToolEnv) (qpdf : Str)
    (src tmp_out : PPath) (mode : Str) (fs : FS)
    (hm : mode = "linearize".toList ∨
      mode = "disable_object_streams".toList)
    (hrc : env.returncode ≠ 0) :
    (run_qpdf env qpdf src tmp_out mode fs).1 =
      .error (run_qpdf_msg env.returncode env.stderr env.stdout) := by
  obtain ⟨c, hc⟩ := qpdf_cmd_valid qpdf src.name tmp_out.name mode hm
  unfold run_qpdf
  rw [hc]
  dsimp only
  rw [if_pos hrc]

/-- An unrecognised mode raises `ValueError` before any subprocess
invocation. -/
theorem run_qpdf_bad_mode (env : ToolEnv) (qpdf : Str)
    (src tmp_out : PPath) (mode : Str) (fs : FS)
    (h1 : mode ≠ "linearize".toList)
    (h2 : mode ≠ "disable_object_streams".toList) :
    run_qpdf env qpdf src tmp_out mode fs =
      (.error ("Unbekannter Modus: ".toList ++ mode), fs, 0) := by
  unfold run_qpdf qpdf_cmd
  rw [if_neg h1, if_neg h2]

/-- Without a stale temp file, the stale-cleanup step does nothing. -/
theorem staleClean_no_stale (env : ToolEnv) (p : PPath) (fs : FS)
    (h : fs (tmpPathOf p) = none) : staleClean env p fs = fs := by
  unfold staleClean
  rw [if_neg]
  rintro ⟨hs, _⟩
  rw [h] at hs
  exact absurd hs (by simp)

/-! ### The strip/fallback behaviour of the failure message -/

/-- When stderr strips to something non-empty, the message is exactly the
stripped stderr. -/
theorem run_qpdf_msg_of_stderr (rc : Int) (stderr stdout : Str)
    (h : pyStrip stderr ≠ []) :
    run_qpdf_msg rc stderr stdout = pyStrip stderr := by
  have hne : stderr ≠ [] := by
    intro h0
    rw [h0] at h
    exact h rfl
  unfold run_qpdf_msg
  rw [if_pos hne]
  exact if_pos h

/-- When stderr is empty and stdout strips to something non-empty, the
message is exactly the stripped stdout. -/
theorem run_qpdf_msg_of_stdout (rc : Int) (stderr stdout : Str)
    (h0 : stderr = []) (h : pyStrip stdout ≠ []) :
    run_qpdf_msg rc stderr stdout = pyStrip stdout := by
  subst h0
  have hne : stdout ≠ [] := by
    intro hx
    rw [hx] at h
    exact h rfl
  simp only [run_qpdf_msg]
  rw [if_neg (show ¬(([] : Str) ≠ []) from fun hk => hk rfl)]
  rw [if_pos hne]
  exact if_pos h

/-! ### C4: non-zero subprocess exit -/

/-- C4: whenever the qpdf subprocess exits non-zero (on a recognised
mode), the repair fails with `changed = false` and the failure message is
`FEHLER: ` followed by the subprocess diagnostic; that diagnostic is the
stripped stderr when stderr strips non-empty, and the stripped stdout
when stderr is empty and stdout strips non-empty. -/
theorem C4_nonzero_exit_failure (env : ToolEnv) (qpdf : Str)
    (pdf_path : PPath) (mode : Str) (fs : FS)
    (hm : mode = "linearize".toList ∨
      mode = "disable_object_streams".toList)
    (hrc : env.returncode ≠ 0) :
    (fix_one_pdf env qpdf pdf_path mode false fs).changed = false ∧
    (fix_one_pdf env qpdf pdf_path mode false fs).status =
      "FEHLER: ".toList ++
        run_qpdf_msg env.returncode env.stderr env.stdout ∧
    (pyStrip env.stderr ≠ [] →
      run_qpdf_msg env.returncode env.stderr env.stdout =
        pyStrip env.stderr) ∧
    (env.stderr = [] → pyStrip env.stdout ≠ [] →
      run_qpdf_msg env.returncode env.stderr env.stdout =
        pyStrip env.stdout) := by
  have heq : fix_one_pdf env qpdf pdf_path mode false fs =
      fix_attempt env qpdf pdf_path mode fs := rfl
  rw [heq]
  rcases hr : run_qpdf env qpdf pdf_path (tmpPathOf pdf_path) mode
      (staleClean env pdf_path fs) with ⟨exc, fs1, calls⟩
  have h1 := run_qpdf_nonzero env qpdf pdf_path (tmpPathOf pdf_path) mode
      (staleClean env pdf_path fs) hm hrc
  rw [hr] at h1
  dsimp only at h1
  subst h1
  unfold fix_attempt
  rw [hr]
  dsimp only
  exact ⟨cleanup_and_fail_changed .., cleanup_and_fail_status ..,
    fun h => run_qpdf_msg_of_stderr _ _ _ h,
    fun h0 h => run_qpdf_msg_of_stdout _ _ _ h0 h⟩

/-- Witness for C4: qpdf exits 1 with stderr "Malformed PDF"; the outcome
is a failure whose message is exactly `FEHLER: Malformed PDF` (which
contains "Malformed PDF"). -/
theorem C4_nonzero_exit_failure_witness :
    (envMalformed.returncode ≠ 0) ∧
    (fix_one_pdf envMalformed "qpdf".toList pathA "linearize".toList
      false fsEmpty).changed = false ∧
    (fix_one_pdf envMalformed "qpdf".toList pathA "linearize".toList
      false fsEmpty).status = "FEHLER: Malformed PDF".toList :=
  ⟨by decide,
   (C4_nonzero_exit_failure envMalformed "qpdf".toList pathA
     "linearize".toList fsEmpty (Or.inl rfl) (by decide)).1,
   ((C4_nonzero_exit_failure envMalformed "qpdf".toList pathA
     "linearize".toList fsEmpty (Or.inl rfl) (by decide)).2.1).trans
     (by decide)⟩

/-! ### C5: validation of the temp output -/

/-- C5: after a successful subprocess (exit 0, recognised mode): if the
temp output is missing or shorter than 10 bytes the attempt fails with
the invalid/empty-output error and the source file is not replaced; if
the temp output exists with at least 10 bytes, validation passes (the
outcome is OK, or the later replace step fails — never the
invalid-output error). -/
theorem C5_output_validation (env : ToolEnv) (qpdf : Str)
    (pdf_path : PPath) (mode : Str) (fs : FS)
    (hm : mode = "linearize".toList ∨
      mode = "disable_object_streams".toList)
    (hrc : env.returncode = 0) :
    (∀ bs, env.writes = some bs → bs.length < 10 →
      (fix_one_pdf env qpdf pdf_path mode false fs).changed = false ∧
      (fix_one_pdf env qpdf pdf_path mode false fs).status =
        "FEHLER: Temp-Ausgabe ist ungültig/leer.".toList ∧
      (fix_one_pdf env qpdf pdf_path mode false fs).fs pdf_path =
        fs pdf_path) ∧
    (env.writes = none → fs (tmpPathOf pdf_path) = none →
      (fix_one_pdf env qpdf pdf_path mode false fs).changed = false ∧
      (fix_one_pdf env qpdf pdf_path mode false fs).status =
        "FEHLER: Temp-Ausgabe ist ungültig/leer.".toList ∧
      (fix_one_pdf env qpdf pdf_path mode false fs).fs pdf_path =
        fs pdf_path) ∧
    (∀ bs, env.writes = some bs → 10 ≤ bs.length →
      (fix_one_pdf env qpdf pdf_path mode false fs).status =
        "OK".toList ∨
      (env.replaceOk = false ∧
        (fix_one_pdf env qpdf pdf_path mode false fs).status =
          "FEHLER: ".toList ++ env.replaceErr)) := by
  have heq : fix_one_pdf env qpdf pdf_path mode false fs =
      fix_attempt env qpdf pdf_path mode fs := rfl
  rw [heq]
  have hpdf_ne : pdf_path ≠ tmpPathOf pdf_path :=
    fun h => tmpPathOf_ne pdf_path h.symm
  refine ⟨?_, ?_, ?_⟩
  · intro bs hw hlen
    have hrun := run_qpdf_zero_writes env qpdf pdf_path
      (tmpPathOf pdf_path) mode (staleClean env pdf_path fs) bs hm hrc hw
    unfold fix_attempt
    rw [hrun]
    dsimp only
    rw [FS.set_self]
    dsimp only
    rw [if_pos hlen]
    refine ⟨cleanup_and_fail_changed ..,
      (cleanup_and_fail_status ..).trans (by decide), ?_⟩
    rw [cleanup_and_fail_fs_ne _ _ _ _ _ pdf_path hpdf_ne,
      FS.set_ne _ _ _ _ hpdf_ne,
      staleClean_apply_ne env pdf_path fs pdf_path hpdf_ne]
  · intro hw hstale
    have hsc : staleClean env pdf_path fs = fs :=
      staleClean_no_stale env pdf_path fs hstale
    have hrun := run_qpdf_zero_nowrites env qpdf pdf_path
      (tmpPathOf pdf_path) mode (staleClean env pdf_path fs) hm hrc hw
    unfold fix_attempt
    rw [hrun]
    dsimp only
    rw [hsc, hstale]
    dsimp only
    refine ⟨cleanup_and_fail_changed ..,
      (cleanup_and_fail_status ..).trans (by decide), ?_⟩
    rw [cleanup_and_fail_fs_ne _ _ _ _ _ pdf_path hpdf_ne]
  · intro bs hw hlen
    have hrun := run_qpdf_zero_writes env qpdf pdf_path
      (tmpPathOf pdf_path) mode (staleClean env pdf_path fs) bs hm hrc hw
    unfold fix_attempt
    rw [hrun]
    dsimp only
    rw [FS.set_self]
    dsimp only
    rw [if_neg (not_lt.mpr hlen)]
    by_cases hrep : env.replaceOk = true
    · rw [if_pos hrep]
      exact Or.inl rfl
    · rw [if_neg hrep]
      exact Or.inr ⟨Bool.eq_false_iff.mpr hrep, cleanup_and_fail_status ..⟩

/-- Witness for C5: qpdf exits 0 but writes nothing; validation fails
with the invalid/empty-output error and the source path is untouched. -/
theorem C5_output_validation_witness :
    envNoOutput.returncode = 0 ∧
    ((fix_one_pdf envNoOutput "qpdf".toList pathA "linearize".toList
        false fsEmpty).changed = false ∧
     (fix_one_pdf envNoOutput "qpdf".toList pathA "linearize".toList
        false fsEmpty).status =
       "FEHLER: Temp-Ausgabe ist ungültig/leer.".toList ∧
     (fix_one_pdf envNoOutput "qpdf".toList pathA "linearize".toList
        false fsEmpty).fs pathA = fsEmpty pathA) :=
  ⟨rfl, (C5_output_validation envNoOutput "qpdf".toList pathA
    "linearize".toList fsEmpty (Or.inl rfl) rfl).2.1 rfl rfl⟩

/-! ### C2: the success path (amended with replace success) -/

/-- C2 (amended): with dry-run not set, a recognised mode, subprocess
exit 0, a temp output passing validation (present, at least 10 bytes)
AND a successful atomic replace, `fix_one_pdf` returns
`(changed = true, "OK")`, the content at the source path equals the
tool's temp output byte-for-byte, no temp file remains, and nothing else
in the filesystem changed. -/
theorem C2_successful_repair (env : ToolEnv) (qpdf : Str)
    (pdf_path : PPath) (mode : Str) (fs : FS) (bs : List Nat)
    (hm : mode = "linearize".toList ∨
      mode = "disable_object_streams".toList)
    (hrc : env.returncode = 0) (hw : env.writes = some bs)
    (hlen : 10 ≤ bs.length) (hrep : env.replaceOk = true) :
    (fix_one_pdf env qpdf pdf_path mode false fs).changed = true ∧
    (fix_one_pdf env qpdf pdf_path mode false fs).status = "OK".toList ∧
    (fix_one_pdf env qpdf pdf_path mode false fs).fs pdf_path =
      some bs ∧
    (fix_one_pdf env qpdf pdf_path mode false fs).fs
      (tmpPathOf pdf_path) = none ∧
    (∀ q, q ≠ pdf_path → q ≠ tmpPathOf pdf_path →
      (fix_one_pdf env qpdf pdf_path mode false fs).fs q = fs q) ∧
    (fix_one_pdf env qpdf pdf_path mode false fs).calls = 1 := by
  have heq : fix_one_pdf env qpdf pdf_path mode false fs =
      fix_attempt env qpdf pdf_path mode fs := rfl
  rw [heq]
  have hrun := run_qpdf_zero_writes env qpdf pdf_path
    (tmpPathOf pdf_path) mode (staleClean env pdf_path fs) bs hm hrc hw
  unfold fix_attempt
  rw [hrun]
  dsimp only
  rw [FS.set_self]
  dsimp only
  rw [if_neg (not_lt.mpr hlen), if_pos hrep]
  refine ⟨rfl, rfl, FS.set_self _ pdf_path bs, ?_, ?_, rfl⟩
  · dsimp only
    rw [FS.set_ne _ _ _ _ (tmpPathOf_ne pdf_path)]
    exact FS.del_self _ _
  · intro q hq1 hq2
    dsimp only
    rw [FS.set_ne _ _ _ _ hq1, FS.del_ne _ _ _ hq2, FS.set_ne _ _ _ _ hq2,
      staleClean_apply_ne env pdf_path fs q hq2]

/-- Counterexample to C2 as frozen: a run in which dry-run is not set,
the subprocess exits 0 and the temp output passes validation (10 bytes),
but the atomic replace fails (locked target); the operation then returns
`changed = false` with a failure status, not `(true, "OK")`. -/
theorem C2_counterexample :
    envRepFail.returncode = 0 ∧
    envRepFail.writes = some tenBytes ∧
    10 ≤ tenBytes.length ∧
    (fix_one_pdf envRepFail "qpdf".toList pathA "linearize".toList false
      fsEmpty).changed = false ∧
    (fix_one_pdf envRepFail "qpdf".toList pathA "linearize".toList false
      fsEmpty).status ≠ "OK".toList := by
  refine ⟨rfl, rfl, by decide, by decide, by decide⟩

/-- Witness for the amended C2 at a fully successful concrete run. -/
theorem C2_successful_repair_witness :
    envOk.returncode = 0 ∧ envOk.writes = some tenBytes ∧
    10 ≤ tenBytes.length ∧ envOk.replaceOk = true ∧
    ((fix_one_pdf envOk "qpdf".toList pathA "linearize".toList false
        fsEmpty).changed = true ∧
     (fix_one_pdf envOk "qpdf".toList pathA "linearize".toList false
        fsEmpty).status = "OK".toList ∧
     (fix_one_pdf envOk "qpdf".toList pathA "linearize".toList false
        fsEmpty).fs pathA = some tenBytes ∧
     (fix_one_pdf envOk "qpdf".toList pathA "linearize".toList false
        fsEmpty).fs (tmpPathOf pathA) = none ∧
     (∀ q, q ≠ pathA → q ≠ tmpPathOf pathA →
       (fix_one_pdf envOk "qpdf".toList pathA "linearize".toList false
        fsEmpty).fs q = fsEmpty q) ∧
     (fix_one_pdf envOk "qpdf".toList pathA "linearize".toList false
        fsEmpty).calls = 1) :=
  ⟨rfl, rfl, by decide, rfl,
   C2_successful_repair envOk "qpdf".toList pathA "linearize".toList
     fsEmpty tenBytes (Or.inl rfl) rfl rfl (by decide) rfl⟩

/-! ### C10: totality of `fix_one_pdf` -/

/-- The three possible status shapes a `fix_one_pdf` call can return. -/
def FixStatus (s : Str) : Prop :=
  s = "OK".toList ∨ s = "DRY-RUN".toList ∨
    ∃ e, s = "FEHLER: ".toList ++ e

/-- Every repair attempt either succeeds with `(true, "OK")` or fails
with `(false, "FEHLER: " ++ e)`. -/
theorem fix_attempt_cases (env : ToolEnv) (qpdf : Str) (pdf_path : PPath)
    (mode : Str) (fs : FS) :
    ((fix_attempt env qpdf pdf_path mode fs).changed = true ∧
     (fix_attempt env qpdf pdf_path mode fs).status = "OK".toList) ∨
    ((fix_attempt env qpdf pdf_path mode fs).changed = false ∧
     ∃ e, (fix_attempt env qpdf pdf_path mode fs).status =
       "FEHLER: ".toList ++ e) := by
  rcases hr : run_qpdf env qpdf pdf_path (tmpPathOf pdf_path) mode
      (staleClean env pdf_path fs) with ⟨exc, fs1, calls⟩
  unfold fix_attempt
  rw [hr]
  cases exc with
  | error e =>
    exact Or.inr ⟨cleanup_and_fail_changed ..,
      e, cleanup_and_fail_status ..⟩
  | ok u =>
    dsimp only
    rcases hv : fs1 (tmpPathOf pdf_path) with _ | bs
    · exact Or.inr ⟨cleanup_and_fail_changed ..,
        _, cleanup_and_fail_status ..⟩
    · dsimp only
      by_cases hlen : bs.length < 10
      · rw [if_pos hlen]
        exact Or.inr ⟨cleanup_and_fail_changed ..,
          _, cleanup_and_fail_status ..⟩
      · rw [if_neg hlen]
        by_cases hrep : env.replaceOk = true
        · rw [if_pos hrep]
          exact Or.inl ⟨rfl, rfl⟩
        · rw [if_neg hrep]
          exact Or.inr ⟨cleanup_and_fail_changed ..,
            _, cleanup_and_fail_status ..⟩

/-- C10: `fix_one_pdf` is a total function: every call returns a
`(changed, status)` pair whose status is one of the three shapes
("OK" / "DRY-RUN" / "FEHLER: ..."), `changed = true` only together with
status "OK", and in particular the `ValueError` raised by `run_qpdf` for
an unrecognised mode is caught and converted into the outcome
`(false, "FEHLER: Unbekannter Modus: {mode}")` with no subprocess
invocation — so no per-file error can escape to the traversal loop. -/
theorem C10_fix_one_pdf_total (env : ToolEnv) (qpdf : Str)
    (pdf_path : PPath) (mode : Str) (dry_run : Bool) (fs : FS) :
    FixStatus (fix_one_pdf env qpdf pdf_path mode dry_run fs).status ∧
    ((fix_one_pdf env qpdf pdf_path mode dry_run fs).changed = true →
      (fix_one_pdf env qpdf pdf_path mode dry_run fs).status =
        "OK".toList) ∧
    (mode ≠ "linearize".toList → mode ≠ "disable_object_streams".toList →
      (fix_one_pdf env qpdf pdf_path mode false fs).changed = false ∧
      (fix_one_pdf env qpdf pdf_path mode false fs).status =
        "FEHLER: Unbekannter Modus: ".toList ++ mode ∧
      (fix_one_pdf env qpdf pdf_path mode false fs).calls = 0) := by
  refine ⟨?_, ?_, ?_⟩
  · cases dry_run with
    | true => exact Or.inr (Or.inl rfl)
    | false =>
      rcases fix_attempt_cases env qpdf pdf_path mode fs with
        ⟨_, h⟩ | ⟨_, e, h⟩
      · exact Or.inl h
      · exact Or.inr (Or.inr ⟨e, h⟩)
  · cases dry_run with
    | true =>
      intro h
      exact absurd (show (false : Bool) = true from h)
        (by decide)
    | false =>
      intro h
      rcases fix_attempt_cases env qpdf pdf_path mode fs with
        ⟨_, hs⟩ | ⟨hc, _⟩
      · exact hs
      · rw [show (fix_one_pdf env qpdf pdf_path mode false fs) =
          fix_attempt env qpdf pdf_path mode fs from rfl, hc] at h
        exact absurd h (by decide)
  · intro h1 h2
    have hrun := run_qpdf_bad_mode env qpdf pdf_path (tmpPathOf pdf_path)
      mode (staleClean env pdf_path fs) h1 h2
    have heq : fix_one_pdf env qpdf pdf_path mode false fs =
        fix_attempt env qpdf pdf_path mode fs := rfl
    rw [heq]
    unfold fix_attempt
    rw [hrun]
    dsimp only
    refine ⟨cleanup_and_fail_changed .., ?_, rfl⟩
    rw [cleanup_and_fail_status]
    rw [← List.append_assoc]
    exact congrArg (fun l => l ++ mode) (by decide)

/-- Witness for C10: the unrecognised mode "x" yields the converted
ValueError outcome with zero subprocess invocations. -/
theorem C10_fix_one_pdf_total_witness :
    ("x".toList ≠ "linearize".toList) ∧
    ((fix_one_pdf envBadMode "qpdf".toList pathA "x".toList false
        fsEmpty).changed = false ∧
     (fix_one_pdf envBadMode "qpdf".toList pathA "x".toList false
        fsEmpty).status =
       "FEHLER: Unbekannter Modus: ".toList ++ "x".toList ∧
     (fix_one_pdf envBadMode "qpdf".toList pathA "x".toList false
        fsEmpty).calls = 0) :=
  ⟨by decide,
   (C10_fix_one_pdf_total envBadMode "qpdf".toList pathA "x".toList
     false fsEmpty).2.2 (by decide) (by decide)⟩

/-! ### The Driver: `find_qpdf`, the counting loop and `main` -/

/-- The tool locator `find_qpdf`: an explicit path must exist, otherwise a lookup on the
search path; both failures raise `FileNotFoundError`. -/
def find_qpdf (explicit : Option Str) (explicitExists : Bool)
    (which : Option Str) : Except Str Str :=
  match explicit with
  | some e =>
    if explicitExists then .ok e
    else .error ("qpdf nicht gefunden unter: ".toList ++ e)
  | none =>
    match which with
    | some w => .ok w
    | none =>
      .error ("qpdf wurde nicht gefunden. Installiere qpdf und stelle sicher, dass es im PATH ist,\noder gib den Pfad an: --qpdf \"C:\\\\Program Files\\\\qpdf\\\\bin\\\\qpdf.exe\"".toList)

/-- The Driver's counters. -/
structure Counters where
  total : Nat
  fixed : Nat
  failed : Nat
deriving DecidableEq

/-- One loop iteration of `main`: `total += 1`, then
`fixed += 1` on a status starting with "OK", nothing on a status
starting with "DRY-RUN", else `failed += 1`. -/
def statusStep (c : Counters) (status : Str) : Counters :=
  if "OK".toList.isPrefixOf status then
    ⟨c.total + 1, c.fixed + 1, c.failed⟩
  else if "DRY-RUN".toList.isPrefixOf status then
    ⟨c.total + 1, c.fixed, c.failed⟩
  else
    ⟨c.total + 1, c.fixed, c.failed + 1⟩

/-- The whole counting loop over the stream of per-file statuses. -/
def runCount (statuses : List Str) : Counters :=
  statuses.foldl statusStep ⟨0, 0, 0⟩

/-- The environment of one `main` invocation: what the root checks see,
what the tool locator sees, and the per-candidate statuses produced by
the per-file calls in traversal order. -/
structure MainEnv where
  rootExists : Bool
  rootIsDir : Bool
  qpdfArg : Option Str
  qpdfArgExists : Bool
  whichQpdf : Option Str
  statuses : List Str

/-- The driver `pymain` (the script function `main`): exit 2 on a bad
root or an unlocatable tool, otherwise run
the loop and exit 0 when no failures were counted, else 1. -/
def pymain (env : MainEnv) : Nat :=
  if ¬ env.rootExists ∨ ¬ env.rootIsDir then 2
  else
    match find_qpdf env.qpdfArg env.qpdfArgExists env.whichQpdf with
    | .error _ => 2
    | .ok _ => if (runCount env.statuses).failed = 0 then 0 else 1

/-- C7: the process exit status is exactly 2 iff the root is missing or
not a directory or the tool cannot be located; otherwise it is 0 when the
failure counter is zero and 1 when at least one per-file failure
occurred. -/
theorem C7_exit_codes (env : MainEnv) :
    (pymain env = 2 ↔ (env.rootExists = false ∨ env.rootIsDir = false ∨
      ∃ e, find_qpdf env.qpdfArg env.qpdfArgExists env.whichQpdf =
        .error e)) ∧
    (env.rootExists = true → env.rootIsDir = true →
      ∀ q, find_qpdf env.qpdfArg env.qpdfArgExists env.whichQpdf =
        .ok q →
      pymain env =
        if (runCount env.statuses).failed = 0 then 0 else 1) := by
  constructor
  · constructor
    · intro h2
      by_cases hre : env.rootExists = true
      · by_cases hrd : env.rootIsDir = true
        · cases hf : find_qpdf env.qpdfArg env.qpdfArgExists
              env.whichQpdf with
          | error e => exact Or.inr (Or.inr ⟨e, rfl⟩)
          | ok q =>
            exfalso
            have hcond : ¬(¬(env.rootExists = true) ∨
                ¬(env.rootIsDir = true)) := by
              rw [hre, hrd]
              simp
            unfold pymain at h2
            rw [if_neg hcond, hf] at h2
            dsimp only at h2
            by_cases hfl : (runCount env.statuses).failed = 0
            · rw [if_pos hfl] at h2
              exact absurd h2 (by decide)
            · rw [if_neg hfl] at h2
              exact absurd h2 (by decide)
        · exact Or.inr (Or.inl (Bool.eq_false_iff.mpr hrd))
      · exact Or.inl (Bool.eq_false_iff.mpr hre)
    · intro h
      rcases h with h | h | ⟨e, hf⟩
      · unfold pymain
        rw [if_pos (Or.inl (by rw [h]; simp))]
      · unfold pymain
        rw [if_pos (Or.inr (by rw [h]; simp))]
      · by_cases hroot : (¬(env.rootExists = true) ∨
            ¬(env.rootIsDir = true))
        · unfold pymain
          rw [if_pos hroot]
        · unfold pymain
          rw [if_neg hroot, hf]
  · intro hre hrd q hf
    have hcond : ¬(¬(env.rootExists = true) ∨ ¬(env.rootIsDir = true)) := by
      rw [hre, hrd]
      simp
    unfold pymain
    rw [if_neg hcond, hf]

/-- Witness for C7: a good root, a located tool, one "OK" and one
failure status — the run exits 1. -/
theorem C7_exit_codes_witness :
    pymain ⟨true, true, none, false, some "/usr/bin/qpdf".toList,
        ["OK".toList, "FEHLER: x".toList]⟩ = 1 :=
  ((C7_exit_codes ⟨true, true, none, false, some "/usr/bin/qpdf".toList,
      ["OK".toList, "FEHLER: x".toList]⟩).2 rfl rfl
    "/usr/bin/qpdf".toList rfl).trans (by decide)

/-! ### C9: the counting discipline of the loop -/

/-- Predicate (as the loop sees it) for a fixed file. -/
def okP (s : Str) : Bool := s == "OK".toList

/-- Predicate for a failed file: neither the OK nor the DRY-RUN status. -/
def failP (s : Str) : Bool :=
  !(s == "OK".toList) && !(s == "DRY-RUN".toList)

theorem statusStep_ok (c : Counters) :
    statusStep c "OK".toList = ⟨c.total + 1, c.fixed + 1, c.failed⟩ := rfl

theorem statusStep_dry (c : Counters) :
    statusStep c "DRY-RUN".toList =
      ⟨c.total + 1, c.fixed, c.failed⟩ := rfl

theorem statusStep_err (c : Counters) (e : Str) :
    statusStep c ("FEHLER: ".toList ++ e) =
      ⟨c.total + 1, c.fixed, c.failed + 1⟩ := rfl

/-- The counting loop, from an arbitrary starting counter state, over
statuses of the three shapes `fix_one_pdf` can produce. -/
theorem runCount_spec (statuses : List Str) : ∀ c : Counters,
    (∀ s ∈ statuses, FixStatus s) →
    statuses.foldl statusStep c =
      ⟨c.total + statuses.length, c.fixed + statuses.countP okP,
        c.failed + statuses.countP failP⟩ := by
  induction statuses with
  | nil =>
    intro c _
    cases c
    simp [List.countP_nil]
  | cons s rest ih =>
    intro c h
    have hrest : ∀ x ∈ rest, FixStatus x :=
      fun x hx => h x (List.mem_cons_of_mem _ hx)
    rw [List.foldl_cons]
    rcases h s (List.mem_cons_self _ _) with hs | hs | ⟨e, hs⟩ <;> subst hs
    · rw [statusStep_ok, ih _ hrest]
      have h1 : (if okP "OK".toList then 1 else 0) = 1 := rfl
      have h2 : (if failP "OK".toList then 1 else 0) = 0 := rfl
      simp only [List.countP_cons, List.length_cons, h1, h2,
        Counters.mk.injEq]
      refine ⟨by omega, by omega, by omega⟩
    · rw [statusStep_dry, ih _ hrest]
      have h1 : (if okP "DRY-RUN".toList then 1 else 0) = 0 := rfl
      have h2 : (if failP "DRY-RUN".toList then 1 else 0) = 0 := rfl
      simp only [List.countP_cons, List.length_cons, h1, h2,
        Counters.mk.injEq]
      refine ⟨by omega, by omega, by omega⟩
    · rw [statusStep_err, ih _ hrest]
      have h1 : (if okP ("FEHLER: ".toList ++ e) then 1 else 0) = 0 := rfl
      have h2 : (if failP ("FEHLER: ".toList ++ e) then 1 else 0) = 1 := rfl
      simp only [List.countP_cons, List.length_cons, h1, h2,
        Counters.mk.injEq]
      refine ⟨by omega, by omega, by omega⟩

/-- C9: over any stream of statuses of the shapes `fix_one_pdf` produces,
the loop counts total = number of candidates, fixed = number of "OK"
outcomes, failed = number of outcomes that are neither "OK" nor
"DRY-RUN"; dry-run outcomes are therefore never counted as failed. -/
theorem C9_counter_discipline (statuses : List Str)
    (h : ∀ s ∈ statuses, FixStatus s) :
    runCount statuses = ⟨statuses.length, statuses.countP okP,
      statuses.countP failP⟩ := by
  rw [runCount, runCount_spec statuses ⟨0, 0, 0⟩ h]
  simp

/-- Witness for C9, the dry-run scenario of the spec: five DRY-RUN
outcomes count as total 5, fixed 0, failed 0, and the run exits 0. -/
theorem C9_counter_discipline_witness :
    runCount (List.replicate 5 "DRY-RUN".toList) = ⟨5, 0, 0⟩ ∧
    pymain ⟨true, true, none, false, some "/usr/bin/qpdf".toList,
      List.replicate 5 "DRY-RUN".toList⟩ = 0 :=
  ⟨(C9_counter_discipline (List.replicate 5 "DRY-RUN".toList)
      (fun s hs => Or.inr (Or.inl (List.eq_of_mem_replicate hs)))).trans
    (by decide),
   by decide⟩

/-! ### C8: the Tree Walker prunes excluded directories -/

mutual
/-- A directory: its regular file names and its subdirectories. -/
inductive DirTree where
  | node : List Str → DirList → DirTree

/-- A list of named subdirectories. -/
inductive DirList where
  | nil : DirList
  | cons : Str → DirTree → DirList → DirList
end

/-- The fixed exclusion set of `iter_pdfs`. -/
def skip_dirs : List Str :=
  ["$recycle.bin".toList, "system volume information".toList,
    ".git".toList, ".svn".toList, "__pycache__".toList]

mutual
/-- The walker `iter_pdfs` (as the top-down `os.walk` performs it):
yield the files
of the current directory that the PDF detector accepts, then descend
into the subdirectories whose lowercase name survives the exclusion
filter. `pdfP dirs fn` abstracts `is_pdf_file(Path(dirpath) / fn)`;
paths are component lists below the root. -/
def iter_pdfs (pdfP : List Str → Str → Bool) (base : List Str) :
    DirTree → List (List Str)
  | .node files subs =>
    (files.filterMap fun fn =>
      if pdfP base fn then some (base ++ [fn]) else none) ++
      iter_pdfs_subdirs pdfP base subs

/-- Walk the kept subdirectories in order. -/
def iter_pdfs_subdirs (pdfP : List Str → Str → Bool) (base : List Str) :
    DirList → List (List Str)
  | .nil => []
  | .cons d t rest =>
    (if pyLower d ∈ skip_dirs then []
      else iter_pdfs pdfP (base ++ [d]) t) ++
      iter_pdfs_subdirs pdfP base rest
end

mutual
/-- Every path yielded below `base` is `base ++ ds ++ [fn]` where no
traversed directory component `ds` has its lowercase name in the
exclusion set. -/
theorem mem_iter_pdfs (pdfP : List Str → Str → Bool) (base : List Str) :
    (t : DirTree) → ∀ p ∈ iter_pdfs pdfP base t,
      ∃ ds fn, p = base ++ ds ++ [fn] ∧
        ∀ d ∈ ds, pyLower d ∉ skip_dirs
  | .node files subs => by
    intro p hp
    simp only [iter_pdfs] at hp
    rcases List.mem_append.mp hp with hp | hp
    · rcases List.mem_filterMap.mp hp with ⟨fn, hfn, hif⟩
      by_cases hb : pdfP base fn = true
      · rw [if_pos hb] at hif
        refine ⟨[], fn, ?_, by simp⟩
        rw [← Option.some_inj.mp hif]
        simp
      · rw [if_neg hb] at hif
        exact absurd hif (by simp)
    · exact mem_iter_pdfs_subdirs pdfP base subs p hp

/-- The same shape property over a list of subdirectories. -/
theorem mem_iter_pdfs_subdirs (pdfP : List Str → Str → Bool)
    (base : List Str) :
    (l : DirList) → ∀ p ∈ iter_pdfs_subdirs pdfP base l,
      ∃ ds fn, p = base ++ ds ++ [fn] ∧
        ∀ d ∈ ds, pyLower d ∉ skip_dirs
  | .nil => by
    intro p hp
    simp only [iter_pdfs_subdirs] at hp
    exact absurd hp (List.not_mem_nil p)
  | .cons d t rest => by
    intro p hp
    simp only [iter_pdfs_subdirs] at hp
    rcases List.mem_append.mp hp with hp | hp
    · by_cases hd : pyLower d ∈ skip_dirs
      · rw [if_pos hd] at hp
        exact absurd hp (List.not_mem_nil p)
      · rw [if_neg hd] at hp
        obtain ⟨ds, fn, hpe, hds⟩ :=
          mem_iter_pdfs pdfP (base ++ [d]) t p hp
        refine ⟨d :: ds, fn, ?_, ?_⟩
        · rw [hpe]
          simp
        · intro x hx
          rcases List.mem_cons.mp hx with hx | hx
          · rw [hx]
            exact hd
          · exact hds x hx
    · exact mem_iter_pdfs_subdirs pdfP base rest p hp
end

/-- C8: for every directory tree and every PDF detector, `iter_pdfs`
never yields a path lying under a directory (at any depth below the
root) whose lowercase name is in the fixed exclusion set: every yielded
path decomposes as traversed directories plus a file name, and every
traversed directory's lowercase name avoids the exclusion set. -/
theorem C8_excluded_dirs_never_visited (pdfP : List Str → Str → Bool)
    (t : DirTree) (p : List Str) (hp : p ∈ iter_pdfs pdfP [] t) :
    ∃ ds fn, p = ds ++ [fn] ∧ ∀ d ∈ ds, pyLower d ∉ skip_dirs := by
  obtain ⟨ds, fn, hpe, hds⟩ := mem_iter_pdfs pdfP [] t p hp
  refine ⟨ds, fn, ?_, hds⟩
  rw [hpe]
  simp

/-- A detector accepting everything (for the witness tree). -/
def allPdf : List Str → Str → Bool := fun _ _ => true

/-- Witness tree: `a.pdf` at the root, a `.git` directory containing
`b.pdf`, and a `docs` directory containing `c.pdf`. -/
def treeEx : DirTree :=
  .node ["a.pdf".toList]
    (.cons ".git".toList (.node ["b.pdf".toList] .nil)
      (.cons "docs".toList (.node ["c.pdf".toList] .nil) .nil))

/-- Witness for C8: the walk yields exactly `a.pdf` and `docs/c.pdf` —
nothing under `.git` — and the theorem applies to the yielded
`docs/c.pdf`. -/
theorem C8_excluded_dirs_never_visited_witness :
    iter_pdfs allPdf [] treeEx =
      [["a.pdf".toList], ["docs".toList, "c.pdf".toList]] ∧
    (["docs".toList, "c.pdf".toList] ∈ iter_pdfs allPdf [] treeEx) ∧
    (∃ ds fn, ["docs".toList, "c.pdf".toList] = ds ++ [fn] ∧
      ∀ d ∈ ds, pyLower d ∉ skip_dirs) :=
  ⟨by decide, by decide,
   C8_excluded_dirs_never_visited allPdf treeEx
     ["docs".toList, "c.pdf".toList] (by decide)⟩

/-- Scenario filesystem for C1: `a.pdf` has a valid `%PDF-` signature
(plus "1.7"), `b.pdf` is a renamed text file containing "hello". -/
def fsScen : FS := fun q =>
  if q = ⟨"/r".toList, "a.pdf".toList⟩ then
    some [37, 80, 68, 70, 45, 49, 46, 55]
  else if q = ⟨"/r".toList, "b.pdf".toList⟩ then
    some [104, 101, 108, 108, 111]
  else none

/-- Witness for C1: only `a.pdf` is classified as a PDF; the renamed
text file `b.pdf` is rejected despite its extension. -/
theorem C1_is_pdf_file_characterisation_witness :
    is_pdf_file fsScen ⟨"/r".toList, "a.pdf".toList⟩ = true ∧
    is_pdf_file fsScen ⟨"/r".toList, "b.pdf".toList⟩ = false :=
  ⟨(C1_is_pdf_file_characterisation fsScen
      ⟨"/r".toList, "a.pdf".toList⟩).mpr
    ⟨by decide, [37, 80, 68, 70, 45, 49, 46, 55], by decide, by decide⟩,
   by decide⟩
